import Mathlib

/-!
Shallow embedding of the smart-lock core from `src/lock.py`.

The program keeps a single mutable configuration dictionary `config_options`
(loaded from `lock.json`) with the keys used by the core:
`locked` (0/1), `mqtt_temp_active` (0/1), `mqtt_perm_pass`, `mqtt_temp_pass`,
`mqtt_qos`, `mqtt_client_id`, `mqtt_transport`.

The two MQTT topic callbacks `toggle_lock` (topics `lock/lock`, `lock/unlock`)
and `toggle_temp_password` (topics `lock/password/temp/activate`,
`lock/password/temp/deactivate`) read a password from the message payload,
classify it with `authenticate`, possibly mutate the configuration, possibly
dump the whole configuration back to `lock.json`, and publish exactly one
response string to `lock/update`.

Each callback is embedded as a pure function from (configuration, topic,
payload) to a `Result` holding the new in-memory configuration, the list of
whole-record dumps performed (in order, each a snapshot of what was written
to `lock.json`), and the single published response string.  All dumps happen
before the publish in the source, so `writes` precedes `response` in time.
-/

namespace SmartLock

/-- The keys of `config_options` that the core reads or writes
(src/lock.py lines 14-22, 30-41, 65-129).  `locked` and `mqtt_temp_active`
are stored as the integers 0/1 by the code (lines 83, 85, 117-118). -/
structure Config where
  locked : Nat
  mqtt_temp_active : Nat
  mqtt_perm_pass : String
  mqtt_temp_pass : String
  mqtt_qos : Nat
  mqtt_client_id : String
  mqtt_transport : String
deriving DecidableEq

/-- Outcome of one callback invocation: the in-memory configuration after the
call, the snapshots dumped to `lock.json` (in order; the source dumps before
it publishes), and the one response string published to `lock/update`. -/
structure Result where
  config : Config
  writes : List Config
  response : String
deriving DecidableEq

/-- `authenticate(config, password)` from src/lock.py lines 30-41:
returns 1 if the password is the permanent password, else 2 if the temporary
password is active (Python truthiness: nonzero) and matches, else 0.
(Line 39 reads the temporary password from the module-level `config_options`,
which is the same dictionary every caller passes as `config`.) -/
def authenticate (config : Config) (password : String) : Nat :=
  if config.mqtt_perm_pass = password then 1
  else if config.mqtt_temp_active ≠ 0 ∧ config.mqtt_temp_pass = password then 2
  else 0

/-- The failure response chosen at src/lock.py line 79. -/
def lock_failure_message (topic : String) : String :=
  if topic = "lock/lock" then "Failure: Locking Failed" else "Failure: Unlocking Failed"

/-- The failure response chosen at src/lock.py lines 112-113. -/
def temp_failure_message (topic : String) : String :=
  if topic = "lock/password/temp/activate" then "Failure: Temp Password Activation Failed"
  else "Failure: Temp Password Deactivation Failed"

/-- `toggle_lock` from src/lock.py lines 65-96, as a pure function of the
configuration, the message topic and the decoded payload.
Line 75-76: `redundant` is true when already unlocked and asked to unlock, or
already locked and asked to lock.  Lines 81-85: if the password authenticates
(nonzero) and the request is not redundant, toggle `locked`; if the password
classified as temporary (2) and `locked` is 0 after the toggle, deactivate the
temporary password.  Lines 87-89: dump the whole configuration to `lock.json`.
Lines 92-96: publish the success response, or the line-79 failure response
when the password did not authenticate (no dump in that case). -/
def toggle_lock (c : Config) (topic password : String) : Result :=
  let redundant := decide (c.locked = 0 ∧ topic = "lock/unlock" ∨
    c.locked = 1 ∧ topic = "lock/lock")
  let authenticated := authenticate c password
  if authenticated ≠ 0 then
    let c1 :=
      if redundant then c
      else
        let ct := { c with locked := if c.locked = 1 then 0 else 1 }
        if authenticated = 2 ∧ ct.locked = 0 then { ct with mqtt_temp_active := 0 } else ct
    { config := c1
      writes := [c1]
      response := "Success: Lock " ++ (if redundant then "Already" else "Now") ++ " " ++
        (if topic = "lock/lock" then "Engaged" else "Disengaged") }
  else
    { config := c, writes := [], response := lock_failure_message topic }

/-- `toggle_temp_password` from src/lock.py lines 99-129, as a pure function.
Lines 108-109: `redundant` is true when already inactive and asked to
deactivate, or already active and asked to activate.  Line 115: only the
permanent password (classification 1) is accepted.  Lines 116-118: if not
redundant, toggle `mqtt_temp_active`.  Lines 120-122: dump the whole
configuration.  Lines 125-129: publish the success response, or the
lines-112-113 failure response when the password was not permanent. -/
def toggle_temp_password (c : Config) (topic password : String) : Result :=
  let redundant := decide (c.mqtt_temp_active = 0 ∧ topic = "lock/password/temp/deactivate" ∨
    c.mqtt_temp_active = 1 ∧ topic = "lock/password/temp/activate")
  let authenticated := authenticate c password
  if authenticated = 1 then
    let c1 :=
      if redundant then c
      else { c with mqtt_temp_active := if c.mqtt_temp_active = 1 then 0 else 1 }
    { config := c1
      writes := [c1]
      response := "Success: Temp Password " ++ (if redundant then "Already" else "Now") ++ " " ++
        (if topic = "lock/password/temp/activate" then "Activated" else "Deactivated") }
  else
    { config := c, writes := [], response := temp_failure_message topic }

/-- The topic routing installed at src/lock.py lines 185-188:
`lock/lock` and `lock/unlock` go to `toggle_lock`; the two temp-password
topics go to `toggle_temp_password`; nothing else is routed to the core. -/
def handle (c : Config) (topic password : String) : Option Result :=
  if topic = "lock/lock" ∨ topic = "lock/unlock" then
    some (toggle_lock c topic password)
  else if topic = "lock/password/temp/activate" ∨ topic = "lock/password/temp/deactivate" then
    some (toggle_temp_password c topic password)
  else none

/-- The complete response vocabulary of the core: the eight success strings
and the four failure strings built at src/lock.py lines 79, 92-94, 112-113
and 125-127. -/
def twelveResponses : List String :=
  ["Success: Lock Now Engaged", "Success: Lock Already Engaged",
   "Success: Lock Now Disengaged", "Success: Lock Already Disengaged",
   "Success: Temp Password Now Activated", "Success: Temp Password Already Activated",
   "Success: Temp Password Now Deactivated", "Success: Temp Password Already Deactivated",
   "Failure: Locking Failed", "Failure: Unlocking Failed",
   "Failure: Temp Password Activation Failed", "Failure: Temp Password Deactivation Failed"]

/-- A locked configuration with distinct permanent and temporary passwords
and the temporary password active. -/
def cfgDistinct : Config :=
  { locked := 1, mqtt_temp_active := 1, mqtt_perm_pass := "abcd",
    mqtt_temp_pass := "1234", mqtt_qos := 1, mqtt_client_id := "slock",
    mqtt_transport := "tcp" }

/-- A locked configuration whose temporary password coincides with the
permanent password and is active.  Nothing in the program rules this state
out: the passwords come from the user-managed `lock.json`. -/
def cfgCoincide : Config :=
  { locked := 1, mqtt_temp_active := 1, mqtt_perm_pass := "1234",
    mqtt_temp_pass := "1234", mqtt_qos := 1, mqtt_client_id := "slock",
    mqtt_transport := "tcp" }

/-- A locked configuration whose temporary password coincides with the
permanent password but is inactive. -/
def cfgCoincideInactive : Config :=
  { locked := 1, mqtt_temp_active := 0, mqtt_perm_pass := "1234",
    mqtt_temp_pass := "1234", mqtt_qos := 1, mqtt_client_id := "slock",
    mqtt_transport := "tcp" }

/-- A locked configuration with the temporary password inactive and distinct
from the permanent password. -/
def cfgPlain : Config :=
  { locked := 1, mqtt_temp_active := 0, mqtt_perm_pass := "abcd",
    mqtt_temp_pass := "1234", mqtt_qos := 1, mqtt_client_id := "slock",
    mqtt_transport := "tcp" }

/-- C2: `authenticate` returns 1 (Permanent) exactly when the presented
password is the permanent password; returns 2 (Temporary) exactly when it is
not the permanent password, the temporary password is active, and it matches
the temporary password; and returns 0 (None) exactly when neither holds —
so every password other than the permanent one and the active temporary one
classifies as 0. -/
theorem authenticate_classification_complete (c : Config) (p : String) :
    (authenticate c p = 1 ↔ c.mqtt_perm_pass = p) ∧
    (authenticate c p = 2 ↔
      c.mqtt_perm_pass ≠ p ∧ c.mqtt_temp_active ≠ 0 ∧ c.mqtt_temp_pass = p) ∧
    (authenticate c p = 0 ↔
      c.mqtt_perm_pass ≠ p ∧ ¬(c.mqtt_temp_active ≠ 0 ∧ c.mqtt_temp_pass = p)) := by
  unfold authenticate
  split_ifs with h1 h2 <;> simp_all

/-- C4 counterexample: in the state `cfgCoincideInactive` the temporary
password is inactive, yet classifying the stored temporary value does not
return 0 (None) — it returns 1 (Permanent), because the temporary value
coincides with the permanent password.  This refutes the claim that the
classification is None in every such state, including the coinciding one. -/
theorem inactive_temp_value_classified_permanent :
    cfgCoincideInactive.mqtt_temp_active = 0 ∧
    authenticate cfgCoincideInactive cfgCoincideInactive.mqtt_temp_pass = 1 := by decide

/-- C4 (amended): when the temporary password is inactive, classifying the
stored temporary value never returns 2 (Temporary); and it returns 0 (None)
whenever the temporary value differs from the permanent password. -/
theorem inactive_temp_never_temporary (c : Config) (h : c.mqtt_temp_active = 0) :
    authenticate c c.mqtt_temp_pass ≠ 2 ∧
    (c.mqtt_temp_pass ≠ c.mqtt_perm_pass → authenticate c c.mqtt_temp_pass = 0) := by
  unfold authenticate
  split_ifs with h1 h2 <;> simp_all

/-- Witness for `inactive_temp_never_temporary` at the concrete state
`cfgPlain`. -/
theorem inactive_temp_never_temporary_witness :
    authenticate cfgPlain cfgPlain.mqtt_temp_pass ≠ 2 ∧
    (cfgPlain.mqtt_temp_pass ≠ cfgPlain.mqtt_perm_pass →
      authenticate cfgPlain cfgPlain.mqtt_temp_pass = 0) :=
  inactive_temp_never_temporary cfgPlain (by decide)

/-- C9: a `lock/lock` command never changes `mqtt_temp_active`, whatever the
state and password: the retirement conditional at src/lock.py line 84 needs
`locked == 0` after the toggle, and a lock toggle always ends with
`locked == 1`. -/
theorem lock_preserves_temp_active (c : Config) (p : String) :
    (toggle_lock c "lock/lock" p).config.mqtt_temp_active = c.mqtt_temp_active := by
  simp only [toggle_lock]
  split_ifs <;> simp_all

/-- C10: the handlers mutate at most `locked` and `mqtt_temp_active`.
For every state, topic and password: `toggle_lock` preserves the permanent
password, the temporary password value, the QoS level, the client id and the
transport, and its only effect on `mqtt_temp_active` besides leaving it alone
is setting it to 0 (the retirement rule); `toggle_temp_password` preserves
`locked` and all of those same fields. -/
theorem handlers_frame_condition (c : Config) (topic p : String) :
    (toggle_lock c topic p).config.mqtt_perm_pass = c.mqtt_perm_pass ∧
    (toggle_lock c topic p).config.mqtt_temp_pass = c.mqtt_temp_pass ∧
    (toggle_lock c topic p).config.mqtt_qos = c.mqtt_qos ∧
    (toggle_lock c topic p).config.mqtt_client_id = c.mqtt_client_id ∧
    (toggle_lock c topic p).config.mqtt_transport = c.mqtt_transport ∧
    ((toggle_lock c topic p).config.mqtt_temp_active = c.mqtt_temp_active ∨
      (toggle_lock c topic p).config.mqtt_temp_active = 0) ∧
    (toggle_temp_password c topic p).config.locked = c.locked ∧
    (toggle_temp_password c topic p).config.mqtt_perm_pass = c.mqtt_perm_pass ∧
    (toggle_temp_password c topic p).config.mqtt_temp_pass = c.mqtt_temp_pass ∧
    (toggle_temp_password c topic p).config.mqtt_qos = c.mqtt_qos ∧
    (toggle_temp_password c topic p).config.mqtt_client_id = c.mqtt_client_id ∧
    (toggle_temp_password c topic p).config.mqtt_transport = c.mqtt_transport := by
  simp only [toggle_temp_password, toggle_lock]
  split_ifs <;> simp_all

/-- C1 counterexample: in the state `cfgCoincide` the temporary password is
active and the lock engaged, and the Unlock payload equals the temporary
value — yet after the call `mqtt_temp_active` is still nonzero (the
credential is not consumed), because the coinciding permanent password makes
`authenticate` return 1 rather than 2, so the retirement conditional at
src/lock.py line 84 does not fire. -/
theorem temp_unlock_full_claim_fails_when_values_coincide :
    cfgCoincide.mqtt_temp_active = 1 ∧ cfgCoincide.locked = 1 ∧
    (toggle_lock cfgCoincide "lock/unlock" cfgCoincide.mqtt_temp_pass).response
      = "Success: Lock Now Disengaged" ∧
    (toggle_lock cfgCoincide "lock/unlock" cfgCoincide.mqtt_temp_pass).config.locked = 0 ∧
    (toggle_lock cfgCoincide "lock/unlock" cfgCoincide.mqtt_temp_pass).config.mqtt_temp_active
      ≠ 0 := by
  decide

/-- C1 (amended): for every state with the temporary password active, the
lock engaged, and the temporary value distinct from the permanent password,
an Unlock whose payload equals the temporary value unlocks, consumes the
temporary credential, and answers "Success: Lock Now Disengaged". -/
theorem temp_unlock_consumes_credential (c : Config)
    (h1 : c.mqtt_temp_active = 1) (h2 : c.locked = 1)
    (h3 : c.mqtt_temp_pass ≠ c.mqtt_perm_pass) :
    (toggle_lock c "lock/unlock" c.mqtt_temp_pass).config.locked = 0 ∧
    (toggle_lock c "lock/unlock" c.mqtt_temp_pass).config.mqtt_temp_active = 0 ∧
    (toggle_lock c "lock/unlock" c.mqtt_temp_pass).response
      = "Success: Lock Now Disengaged" := by
  have ha : authenticate c c.mqtt_temp_pass = 2 := by
    unfold authenticate
    split_ifs <;> simp_all
  simp [toggle_lock, ha, h2]

/-- Witness for `temp_unlock_consumes_credential` at the concrete state
`cfgDistinct` (Scenario D of the specification). -/
theorem temp_unlock_consumes_credential_witness :
    (toggle_lock cfgDistinct "lock/unlock" cfgDistinct.mqtt_temp_pass).config.locked = 0 ∧
    (toggle_lock cfgDistinct "lock/unlock" cfgDistinct.mqtt_temp_pass).config.mqtt_temp_active
      = 0 ∧
    (toggle_lock cfgDistinct "lock/unlock" cfgDistinct.mqtt_temp_pass).response
      = "Success: Lock Now Disengaged" :=
  temp_unlock_consumes_credential cfgDistinct rfl rfl (by decide)

/-- C3 counterexample: in `cfgCoincide` the temporary password is active and
an Activate whose payload equals the temporary value is NOT rejected: the
coinciding permanent password classifies as 1, so the command succeeds and
performs a persistence write — refuting "Activate or Deactivate presented
with the temporary credential value is always Unauthorized". -/
theorem temp_selfmanage_authorized_when_values_coincide :
    cfgCoincide.mqtt_temp_active = 1 ∧
    (toggle_temp_password cfgCoincide "lock/password/temp/activate"
      cfgCoincide.mqtt_temp_pass).response = "Success: Temp Password Already Activated" ∧
    (toggle_temp_password cfgCoincide "lock/password/temp/activate"
      cfgCoincide.mqtt_temp_pass).writes ≠ [] := by
  decide

/-- C3 (amended): whenever the classification is 0 (None) the lock handler
leaves the state untouched, writes nothing, and answers the failure message
for its topic; whenever the classification is not 1 (not Permanent) the
temp-password handler does the same; and in every state whose active
temporary value differs from the permanent password, presenting the
temporary value to the temp-password handler is rejected that way. -/
theorem unauthorized_commands_no_mutation (c : Config) (topic p : String) :
    (authenticate c p = 0 →
      (toggle_lock c topic p).config = c ∧ (toggle_lock c topic p).writes = [] ∧
      (toggle_lock c topic p).response = lock_failure_message topic) ∧
    (authenticate c p ≠ 1 →
      (toggle_temp_password c topic p).config = c ∧
      (toggle_temp_password c topic p).writes = [] ∧
      (toggle_temp_password c topic p).response = temp_failure_message topic) ∧
    (c.mqtt_temp_active = 1 → c.mqtt_temp_pass ≠ c.mqtt_perm_pass →
      (toggle_temp_password c topic c.mqtt_temp_pass).config = c ∧
      (toggle_temp_password c topic c.mqtt_temp_pass).writes = [] ∧
      (toggle_temp_password c topic c.mqtt_temp_pass).response
        = temp_failure_message topic) := by
  refine ⟨fun h => ?_, fun h => ?_, fun ha1 ha3 => ?_⟩
  · simp [toggle_lock, h]
  · simp [toggle_temp_password, h]
  · have ha : authenticate c c.mqtt_temp_pass = 2 := by
      unfold authenticate
      split_ifs <;> simp_all
    simp [toggle_temp_password, ha]

/-- Witness for `unauthorized_commands_no_mutation`: a wrong password leaves
`cfgDistinct` untouched on `lock/unlock`, and the active temporary password
"1234" cannot activate itself. -/
theorem unauthorized_commands_no_mutation_witness :
    (toggle_lock cfgDistinct "lock/unlock" "zzzz").config = cfgDistinct ∧
    (toggle_temp_password cfgDistinct "lock/password/temp/activate"
      cfgDistinct.mqtt_temp_pass).response
      = temp_failure_message "lock/password/temp/activate" :=
  ⟨((unauthorized_commands_no_mutation cfgDistinct "lock/unlock" "zzzz").1 (by decide)).1,
    (((unauthorized_commands_no_mutation cfgDistinct "lock/password/temp/activate"
      cfgDistinct.mqtt_temp_pass).2.2) rfl (by decide)).2.2⟩

/-- C5 counterexample: from `cfgDistinct` (locked, temporary password "1234"
active and distinct from the permanent password) the authorized command
`Unlock "1234"` issued twice in a row ends with a second response of
"Failure: Unlocking Failed" and no persistence write — not an "Already"
success with a write — because the first call consumed the temporary
credential. -/
theorem second_unlock_after_temp_consumption_fails :
    authenticate cfgDistinct "1234" ≠ 0 ∧ cfgDistinct.locked = 1 ∧
    (toggle_lock (toggle_lock cfgDistinct "lock/unlock" "1234").config
      "lock/unlock" "1234").response = "Failure: Unlocking Failed" ∧
    (toggle_lock (toggle_lock cfgDistinct "lock/unlock" "1234").config
      "lock/unlock" "1234").writes = [] := by
  decide

/-- C5 (amended): issuing the same authorized Lock or Unlock command twice in
a row, provided the password still authenticates at the second call (true
unless the first call consumed the temporary credential), leaves `locked`
unchanged after the second call, and the redundant second call still writes
the whole record once and still answers the "Already" success response. -/
theorem lock_unlock_idempotent (c : Config) (topic p : String)
    (hl : c.locked = 0 ∨ c.locked = 1)
    (ht : topic = "lock/lock" ∨ topic = "lock/unlock")
    (h1 : authenticate c p ≠ 0)
    (h2 : authenticate (toggle_lock c topic p).config p ≠ 0) :
    (toggle_lock (toggle_lock c topic p).config topic p).config.locked
      = (toggle_lock c topic p).config.locked ∧
    (toggle_lock (toggle_lock c topic p).config topic p).writes
      = [(toggle_lock c topic p).config] ∧
    (toggle_lock (toggle_lock c topic p).config topic p).response
      = "Success: Lock Already " ++
        (if topic = "lock/lock" then "Engaged" else "Disengaged") := by
  rcases ht with rfl | rfl <;> rcases hl with hc | hc <;>
    simp_all [toggle_lock] <;> (split_ifs <;> simp_all)

/-- Witness for `lock_unlock_idempotent`: two Unlock commands with the
permanent password from the locked state `cfgPlain` (Scenarios B and C of
the specification). -/
theorem lock_unlock_idempotent_witness :
    (toggle_lock (toggle_lock cfgPlain "lock/unlock" "abcd").config
      "lock/unlock" "abcd").config.locked
      = (toggle_lock cfgPlain "lock/unlock" "abcd").config.locked ∧
    (toggle_lock (toggle_lock cfgPlain "lock/unlock" "abcd").config
      "lock/unlock" "abcd").writes
      = [(toggle_lock cfgPlain "lock/unlock" "abcd").config] ∧
    (toggle_lock (toggle_lock cfgPlain "lock/unlock" "abcd").config
      "lock/unlock" "abcd").response
      = "Success: Lock Already " ++
        (if "lock/unlock" = "lock/lock" then "Engaged" else "Disengaged") :=
  lock_unlock_idempotent cfgPlain "lock/unlock" "abcd" (Or.inr rfl) (Or.inr rfl)
    (by decide) (by decide)

/-- C6: in every state that is already unlocked with the temporary password
active, an Unlock whose payload is the temporary value is redundant: it
answers "Success: Lock Already Disengaged" and leaves the temporary password
active — the retirement rule does not fire on a redundant unlock. -/
theorem redundant_unlock_keeps_temp_active (c : Config)
    (h0 : c.locked = 0) (h1 : c.mqtt_temp_active = 1) :
    (toggle_lock c "lock/unlock" c.mqtt_temp_pass).config.mqtt_temp_active = 1 ∧
    (toggle_lock c "lock/unlock" c.mqtt_temp_pass).response
      = "Success: Lock Already Disengaged" := by
  have ha : authenticate c c.mqtt_temp_pass ≠ 0 := by
    unfold authenticate
    split_ifs <;> simp_all
  simp [toggle_lock, ha, h0, h1]

/-- Witness for `redundant_unlock_keeps_temp_active` at the unlocked variant
of `cfgDistinct`. -/
theorem redundant_unlock_keeps_temp_active_witness :
    (toggle_lock { cfgDistinct with locked := 0 } "lock/unlock"
      ({ cfgDistinct with locked := 0 } : Config).mqtt_temp_pass).config.mqtt_temp_active
      = 1 ∧
    (toggle_lock { cfgDistinct with locked := 0 } "lock/unlock"
      ({ cfgDistinct with locked := 0 } : Config).mqtt_temp_pass).response
      = "Success: Lock Already Disengaged" :=
  redundant_unlock_keeps_temp_active { cfgDistinct with locked := 0 } rfl rfl

/-- C7: at the failing input (the locked state `cfgPlain`, Unlock with the
permanent password) the handler mutates `locked` and performs exactly one
whole-record dump of the configuration to `lock.json` before publishing the
success response.  The source performs this dump by `open("lock.json", "w")`
followed by `json.dump` (src/lock.py lines 87-89): an in-place truncating
overwrite, not a staged atomic replacement, so the claim's crash-atomicity
requirement is not met by the code. -/
theorem mutating_unlock_single_overwrite :
    (toggle_lock cfgPlain "lock/unlock" "abcd").config.locked = 0 ∧
    (toggle_lock cfgPlain "lock/unlock" "abcd").writes
      = [(toggle_lock cfgPlain "lock/unlock" "abcd").config] ∧
    (toggle_lock cfgPlain "lock/unlock" "abcd").response
      = "Success: Lock Now Disengaged" := by
  decide

/-- C8 counterexample: nine pairwise-distinct response strings, each the
output of the core at an explicit concrete input.  Since more than eight
distinct responses are reachable, no vocabulary of eight fixed strings can
contain every output of the core: §4.2/§4.3 in fact define twelve strings
(eight success responses and four failure responses). -/
theorem nine_distinct_responses :
    ([(toggle_lock { cfgPlain with locked := 0 } "lock/lock" "abcd").response,
      (toggle_lock cfgPlain "lock/lock" "abcd").response,
      (toggle_lock cfgPlain "lock/unlock" "abcd").response,
      (toggle_lock { cfgPlain with locked := 0 } "lock/unlock" "abcd").response,
      (toggle_lock cfgPlain "lock/lock" "zzzz").response,
      (toggle_lock cfgPlain "lock/unlock" "zzzz").response,
      (toggle_temp_password cfgPlain "lock/password/temp/activate" "abcd").response,
      (toggle_temp_password cfgDistinct "lock/password/temp/activate" "abcd").response,
      (toggle_temp_password cfgPlain "lock/password/temp/deactivate" "zzzz").response]).Nodup
      := by
  decide

/-- C8 (amended): every response the router emits for a command on one of the
four subscribed topics is one of the twelve fixed strings of §4.2/§4.3 —
the eight success responses and the four failure responses; no other string
is ever an output of the core. -/
theorem responses_in_twelve_vocabulary (c : Config) (topic p : String) (r : Result)
    (h : handle c topic p = some r) : r.response ∈ twelveResponses := by
  unfold handle at h
  split_ifs at h with ht1 ht2
  · rcases ht1 with rfl | rfl <;>
    · cases h
      simp only [toggle_lock]
      split_ifs <;> simp [twelveResponses, lock_failure_message]
  · rcases ht2 with rfl | rfl <;>
    · cases h
      simp only [toggle_temp_password]
      split_ifs <;> simp [twelveResponses, temp_failure_message]

/-- Witness for `responses_in_twelve_vocabulary` at a concrete routed
command. -/
theorem responses_in_twelve_vocabulary_witness :
    (toggle_lock cfgPlain "lock/lock" "abcd").response ∈ twelveResponses :=
  responses_in_twelve_vocabulary cfgPlain "lock/lock" "abcd"
    (toggle_lock cfgPlain "lock/lock" "abcd") (by decide)

end SmartLock
